import Mathlib

/-!
Verification of the Enterprise Recruitment Agent core against its
natural-language specification.

The definitions below are a shallow embedding of the Python sources
`enterprise_recruitment_agent/{matching_engine,bulk_processor,resume_parser}.py`:
Python floats are modelled as exact rationals (`ℚ`), Python `round` as
round-half-to-even (`pyRound`), Python lists as `List`, the database and the
base64/text-extraction collaborators as explicit function parameters, and the
order-preserving parallel gather of the bulk pipeline as an order-preserving
chunked map.  Score constants such as `0.8` are written `8/10 : ℚ`.
-/

namespace RecruitmentAgent

/-! ## String helpers (Python `in`, `str.lower`, `str.strip`) -/

/-- Boolean prefix test on character lists. -/
def isPrefixB : List Char → List Char → Bool
  | [], _ => true
  | _ :: _, [] => false
  | a :: as_, b :: bs => a = b && isPrefixB as_ bs

/-- Python substring containment `needle in hay` on character lists. -/
def containsSubList (hay needle : List Char) : Bool :=
  match hay with
  | [] => needle.isEmpty
  | _ :: t => isPrefixB needle hay || containsSubList t needle

/-- Python substring containment `needle in hay` on strings. -/
def containsSubStr (hay needle : String) : Bool :=
  containsSubList hay.data needle.data

/-! ## Data model (`models.py`), restricted to the fields the core reads -/

/-- `models.CandidateProfile`, restricted to the fields read by the bulk
pipeline and the matching engine (timestamps dropped). -/
structure CandidateProfile where
  name : String := ""
  email : String := ""
  skills : List String := []
  experience_years : Int := 0
  location : Option String := none
  education_level : Option String := none
  salary_expectation : Option Int := none
  source : Option String := none
deriving Repr, DecidableEq, Inhabited

/-- A candidate row as handed to the matching engine by the database
(`get_candidates_for_matching`): a profile plus its assigned id. -/
structure CandidateRow where
  id : Nat
  name : String
  email : String
  skills : List String
  experience_years : Int
  location : Option String := none
  education_level : Option String := none
  salary_expectation : Option Int := none
deriving Repr, DecidableEq, Inhabited

/-- `models.JobPosting`, restricted to the fields read by `_calculate_match_score`
and `find_best_matches`. -/
structure JobRow where
  id : Nat
  title : String
  required_skills : List String := []
  preferred_skills : List String := []
  experience_min : Option Int := none
  experience_max : Option Int := none
  location : Option String := none
  remote_ok : Bool := false
  salary_min : Option Int := none
  salary_max : Option Int := none
  education_requirements : Option String := none
deriving Repr, DecidableEq, Inhabited

/-- `models.MatchResult` (timestamps dropped). -/
structure MatchResult where
  candidate_id : Nat
  job_id : Nat
  candidate_name : String
  job_title : String
  overall_match_score : ℚ
  skill_match_score : ℚ
  experience_match_score : ℚ
  location_match_score : ℚ
  education_match_score : ℚ
  salary_match_score : ℚ
  matching_skills : List String := []
  missing_skills : List String := []
  skill_gap_percentage : ℚ := 0
  experience_fit : String := ""
  experience_gap_years : Int := 0
  location_compatibility : Bool := true
  salary_compatibility : Bool := true
  availability_match : Bool := true
  recommendation : String := ""
  match_reasons : List String := []
  concern_areas : List String := []
deriving Repr, DecidableEq, Inhabited

/-- Python `min(a, b)` on rationals, written so that the kernel can reduce it. -/
def pyMin (a b : ℚ) : ℚ := if a ≤ b then a else b

/-- Python `max(a, b)` on rationals, written so that the kernel can reduce it. -/
def pyMax (a b : ℚ) : ℚ := if a ≤ b then b else a

/-- Python `round(x, ndigits)`: round half to even (banker's rounding),
modelled exactly on `ℚ`. -/
def pyRound (q : ℚ) (ndigits : Nat) : ℚ :=
  let p : ℚ := (10 : ℚ) ^ ndigits
  let x := q * p
  let f : ℤ := ⌊x⌋
  let r := x - f
  let n : ℤ := if r < 1/2 then f else if 1/2 < r then f + 1
               else if f % 2 = 0 then f else f + 1
  (n : ℚ) / p

/-! ## Matching engine: `MatchingEngine._calculate_experience_match` -/

/-- `MatchingEngine._calculate_experience_match` (matching_engine.py:318-358).
Returns `(score, fit, gap)`.  `None` bounds default to `0` and `20`. -/
def calculateExperienceMatch (candidateYears : Int) (minYears maxYears : Option Int) :
    ℚ × String × Int :=
  let minY := minYears.getD 0
  let maxY := maxYears.getD 20
  if candidateYears < minY then
    let gap := minY - candidateYears
    (if gap ≤ 1 then 8/10 else if gap ≤ 2 then 6/10
     else pyMax (2/10) (1 - (gap : ℚ) * (2/10)), "Under-qualified", gap)
  else if candidateYears > maxY then
    let gap := candidateYears - maxY
    (if gap ≤ 2 then 9/10 else if gap ≤ 5 then 8/10 else 7/10, "Over-qualified", gap)
  else
    (1, "Perfect", 0)

/-! ## Matching engine: skill matching (`MatchingEngine._calculate_skill_match`) -/

/-- `MatchingEngine.skill_relationships` (matching_engine.py:32-43). -/
def skill_relationships : List (String × List String) :=
  [("React", ["JavaScript", "JSX", "Redux", "HTML", "CSS"]),
   ("Angular", ["TypeScript", "JavaScript", "HTML", "CSS", "RxJS"]),
   ("Vue.js", ["JavaScript", "HTML", "CSS", "Vuex"]),
   ("Python", ["Django", "Flask", "FastAPI", "NumPy", "Pandas"]),
   ("Java", ["Spring", "Hibernate", "Maven", "Gradle"]),
   ("Node.js", ["JavaScript", "Express", "npm", "REST APIs"]),
   ("AWS", ["Cloud Computing", "EC2", "S3", "Lambda", "RDS"]),
   ("Docker", ["Containerization", "Kubernetes", "DevOps"]),
   ("Machine Learning", ["Python", "TensorFlow", "PyTorch", "Scikit-learn"]),
   ("Data Science", ["Python", "R", "Pandas", "NumPy", "Statistics"])]

/-- Python `self.skill_relationships.get(key)` / `key in self.skill_relationships`. -/
def relationshipsGet (s : String) : Option (List String) :=
  (skill_relationships.find? (fun p => p.1 = s)).map (fun p => p.2)

/-- `MatchingEngine._find_related_skill_match` (matching_engine.py:293-316).
Skill weights: related match 7/10, category match 5/10. -/
def findRelatedSkillMatch (requiredSkill : String) (candidateSkills : List String) : ℚ :=
  let requiredLower := requiredSkill.toLower
  let candidateSkillsLower := candidateSkills.map String.toLower
  if (match relationshipsGet requiredSkill with
      | some related => (related.map String.toLower).any (fun r => candidateSkillsLower.contains r)
      | none => false) then 7/10
  else if candidateSkills.any (fun cs =>
      match relationshipsGet cs with
      | some related => (related.map String.toLower).contains requiredLower
      | none => false) then 7/10
  else if candidateSkillsLower.any (fun part =>
      part.length > 3 && containsSubStr requiredLower part) then 5/10
  else 0

/-- The per-required-skill award inside the loop of
`MatchingEngine._calculate_skill_match` (matching_engine.py:259-276): 1 for an
exact case-insensitive match, else the related-skill score. -/
def skillAward (candidateSkills : List String) (reqSkill : String) : ℚ :=
  if (candidateSkills.map String.toLower).contains reqSkill.toLower then 1
  else findRelatedSkillMatch reqSkill candidateSkills

/-- One step of the preferred-skill bonus loop of
`MatchingEngine._calculate_skill_match` (matching_engine.py:278-285): a matched
preferred skill adds 1/10 to the bonus and is appended to the matching list if
not already present. -/
def prefStep (candidateSkillsLower : List String) (acc : ℚ × List String) (p : String) :
    ℚ × List String :=
  if candidateSkillsLower.contains p.toLower then
    (acc.1 + 1/10, if acc.2.contains p then acc.2 else acc.2 ++ [p])
  else acc

/-- `MatchingEngine._calculate_skill_match` (matching_engine.py:239-291).
Returns `(final score, matching skills, missing skills)`. -/
def calculateSkillMatch (candidateSkills requiredSkills preferredSkills : List String) :
    ℚ × List String × List String :=
  if requiredSkills.isEmpty then (1, [], [])
  else
    let candidateSkillsLower := candidateSkills.map String.toLower
    let matchingRequired := requiredSkills.filter (fun r => skillAward candidateSkills r ≠ 0)
    let missingSkills := requiredSkills.filter (fun r => skillAward candidateSkills r = 0)
    let totalScore := (requiredSkills.map (skillAward candidateSkills)).sum
    let prefState := preferredSkills.foldl (prefStep candidateSkillsLower) (0, matchingRequired)
    let requiredScore := totalScore / requiredSkills.length
    (pyMin (requiredScore + prefState.1) 1, prefState.2, missingSkills)

/-! ## Matching engine: remaining sub-scores -/

/-- `MatchingEngine._calculate_location_match` (matching_engine.py:360-397).
Returns `(score, compatible)`.  `none` and the empty string are both falsy in
the source's `if not job_location or not candidate_location`. -/
def calculateLocationMatch (candidateLocation jobLocation : Option String)
    (remoteOk : Bool) : ℚ × Bool :=
  if remoteOk then (1, true)
  else
    let jl := jobLocation.getD ""
    let cl := candidateLocation.getD ""
    if jl = "" ∨ cl = "" then (7/10, true)
    else
      let cll := cl.toLower
      let jll := jl.toLower
      if cll = jll then (1, true)
      else
        let candidateParts := cll.splitOn ","
        let jobParts := jll.splitOn ","
        if 2 ≤ candidateParts.length ∧ 2 ≤ jobParts.length ∧
            (candidateParts.getLastD "").trim = (jobParts.getLastD "").trim then (8/10, true)
        else if 2 ≤ candidateParts.length ∧ 2 ≤ jobParts.length ∧
            (candidateParts.headD "").trim = (jobParts.headD "").trim then (9/10, true)
        else if candidateParts.any (fun part => containsSubStr jll part.trim) then (6/10, true)
        else (3/10, false)

/-- The education hierarchy dictionary of
`MatchingEngine._calculate_education_match` (`dict.get` default 0). -/
def educationHierarchy (level : String) : Nat :=
  if level = "High School" then 1
  else if level = "Associates" then 2
  else if level = "Bachelors" then 3
  else if level = "Masters" then 4
  else if level = "PhD" then 5
  else 0

/-- `MatchingEngine._calculate_education_match` (matching_engine.py:399-442). -/
def calculateEducationMatch (candidateEducation jobEducation : Option String) : ℚ :=
  let je := jobEducation.getD ""
  if je = "" then 1
  else
    let ce := candidateEducation.getD ""
    if ce = "" then 1/2
    else
      let candidateLevel := educationHierarchy ce
      let jel := je.toLower
      let jobReqLevel : Nat :=
        if containsSubStr jel "phd" ∨ containsSubStr jel "doctorate" then 5
        else if containsSubStr jel "master" then 4
        else if containsSubStr jel "bachelor" then 3
        else if containsSubStr jel "associate" then 2
        else 1
      if jobReqLevel ≤ candidateLevel then 1
      else if candidateLevel = jobReqLevel - 1 then 8/10
      else 1/2

/-- Python integer truthiness for `Option Int` fields (`None` and `0` falsy). -/
def optIntTruthy (o : Option Int) : Bool :=
  match o with
  | none => false
  | some v => v ≠ 0

/-- `MatchingEngine._calculate_salary_match` (matching_engine.py:444-474).
Returns `(score, compatible)`. -/
def calculateSalaryMatch (candidateExpectation jobMin jobMax : Option Int) : ℚ × Bool :=
  if ¬ optIntTruthy candidateExpectation then (1, true)
  else if ¬ optIntTruthy jobMin ∧ ¬ optIntTruthy jobMax then (1, true)
  else if optIntTruthy jobMin ∧ optIntTruthy jobMax then
    let ce := candidateExpectation.getD 0
    let jm := jobMin.getD 0
    let jM := jobMax.getD 0
    if jm ≤ ce ∧ ce ≤ jM then (1, true)
    else if ce < jm then (1, true)
    else
      let gapPercent : ℚ := ((ce - jM : ℤ) : ℚ) / (jM : ℚ)
      if gapPercent ≤ 1/10 then (8/10, true)
      else if gapPercent ≤ 2/10 then (6/10, false)
      else (3/10, false)
  else (7/10, true)

/-- `MatchingEngine._generate_recommendation` (matching_engine.py:476-540).
Returns `(recommendation, reasons, concerns)`. -/
def generateRecommendation (overallScore skillScore experienceScore locationScore : ℚ)
    (matchingSkills missingSkills : List String) (experienceFit : String) :
    String × List String × List String :=
  let reasons :=
    (if 8/10 ≤ skillScore then ["Strong technical skill alignment"]
     else if 6/10 ≤ skillScore then ["Good skill match with some gaps"] else []) ++
    (if 9/10 ≤ experienceScore then
      ["Perfect experience level (" ++ experienceFit ++ ")"]
     else if 7/10 ≤ experienceScore then ["Appropriate experience level"] else []) ++
    (if 9/10 ≤ locationScore then ["Excellent location match"] else []) ++
    (if 5 < matchingSkills.length then ["Extensive relevant skill set"] else [])
  let concerns :=
    (if skillScore < 6/10 then ["Significant skill gaps identified"] else []) ++
    (if ¬ missingSkills.isEmpty then
      (if missingSkills.length = 1 then
        ["Missing required skill: " ++ missingSkills.headD ""]
       else if missingSkills.length ≤ 3 then
        ["Missing skills: " ++ String.intercalate ", " missingSkills]
       else
        ["Missing " ++ toString missingSkills.length ++ " required skills"])
     else []) ++
    (if experienceFit = "Under-qualified" then ["Below minimum experience requirement"]
     else if experienceFit = "Over-qualified" then ["May be over-qualified for the role"]
     else []) ++
    (if locationScore < 1/2 then ["Location mismatch - may require relocation"] else [])
  let recommendation :=
    if 85/100 ≤ overallScore then "Excellent Match"
    else if 75/100 ≤ overallScore then "Strong Match"
    else if 65/100 ≤ overallScore then "Good Match"
    else if 1/2 ≤ overallScore then "Potential Match"
    else "Poor Match"
  (recommendation, reasons, concerns)

/-- `MatchingEngine._calculate_match_score` (matching_engine.py:164-237):
computes all sub-scores, the weighted overall score
(0.4 skills + 0.25 experience + 0.15 location + 0.1 education + 0.1 salary),
the recommendation, and assembles the `MatchResult` with scores rounded to
three decimal places. -/
def calculateMatchScore (candidate : CandidateRow) (job : JobRow) : MatchResult :=
  let skillRes := calculateSkillMatch candidate.skills job.required_skills job.preferred_skills
  let expRes := calculateExperienceMatch candidate.experience_years
    job.experience_min job.experience_max
  let locRes := calculateLocationMatch candidate.location job.location job.remote_ok
  let eduScore := calculateEducationMatch candidate.education_level job.education_requirements
  let salRes := calculateSalaryMatch candidate.salary_expectation job.salary_min job.salary_max
  let overallScore :=
    skillRes.1 * (4/10) + expRes.1 * (25/100) + locRes.1 * (15/100) +
    eduScore * (1/10) + salRes.1 * (1/10)
  let recRes := generateRecommendation overallScore skillRes.1 expRes.1 locRes.1
    skillRes.2.1 skillRes.2.2 expRes.2.1
  { candidate_id := candidate.id
    job_id := job.id
    candidate_name := candidate.name
    job_title := job.title
    overall_match_score := pyRound overallScore 3
    skill_match_score := pyRound skillRes.1 3
    experience_match_score := pyRound expRes.1 3
    location_match_score := pyRound locRes.1 3
    education_match_score := pyRound eduScore 3
    salary_match_score := pyRound salRes.1 3
    matching_skills := skillRes.2.1
    missing_skills := skillRes.2.2
    skill_gap_percentage :=
      pyRound (((skillRes.2.2.length : ℚ) / (max job.required_skills.length 1 : Nat)) * 100) 1
    experience_fit := expRes.2.1
    experience_gap_years := expRes.2.2
    location_compatibility := locRes.2
    salary_compatibility := salRes.2
    recommendation := recRes.1
    match_reasons := recRes.2.1
    concern_areas := recRes.2.2 }

/-- The candidate of end-to-end scenario B: skills Python and React,
4 years of experience, no location / education / salary data. -/
def scenarioBCandidate : CandidateRow :=
  { id := 1, name := "Jane Doe", email := "jane@example.com",
    skills := ["Python", "React"], experience_years := 4 }

/-- The job of end-to-end scenario B: requires Python and SQL, experience
range [3, 6], remote OK, no preferred skills, no education requirement,
no salary range. -/
def scenarioBJob : JobRow :=
  { id := 10, title := "Backend Engineer",
    required_skills := ["Python", "SQL"],
    experience_min := some 3, experience_max := some 6, remote_ok := true }

/-- `MatchingEngine.find_best_matches` (matching_engine.py:55-130), restricted
to its pure data flow: score every candidate of the pool, keep those with
overall score at least `minScore`, sort by score descending (Python's stable
sort), truncate to `lim`, and build the `MatchResult` objects handed to
`save_match_results` — with the literal `0.8` placeholders for the education
and salary sub-scores and dataclass defaults for the fields the result dict
does not carry (matching_engine.py:106-126). -/
def findBestMatches (job : JobRow) (candidates : List CandidateRow) (lim : Nat)
    (minScore : ℚ) : List MatchResult :=
  let matchResults := (candidates.map (fun c => calculateMatchScore c job)).filter
    (fun r => decide (minScore ≤ r.overall_match_score))
  let sorted := matchResults.mergeSort
    (fun a b => decide (b.overall_match_score ≤ a.overall_match_score))
  (sorted.take lim).map (fun r =>
    { candidate_id := r.candidate_id
      job_id := job.id
      candidate_name := r.candidate_name
      job_title := job.title
      overall_match_score := r.overall_match_score
      skill_match_score := r.skill_match_score
      experience_match_score := r.experience_match_score
      location_match_score := r.location_match_score
      education_match_score := 8/10
      salary_match_score := 8/10
      matching_skills := r.matching_skills
      missing_skills := r.missing_skills
      recommendation := r.recommendation
      match_reasons := r.match_reasons
      concern_areas := r.concern_areas })

/-! ## Resume parser: `ResumeParser._parse_single_resume` (resume_parser.py) -/

/-- `ResumeParser._create_empty_candidate` (resume_parser.py:516-523): the
profile returned for failed parsing, name prefixed with `Failed_Parse_`,
all other fields left at their dataclass defaults. -/
def createEmptyCandidate (filename : String) : CandidateProfile :=
  { name := "Failed_Parse_" ++ filename, email := "",
    source := some "Resume Upload - Failed" }

/-- `ResumeParser._parse_single_resume` (resume_parser.py:112-129), with the
base64 decoder, the text-extraction collaborator and the structured-data parser
as explicit parameters (`β` is the type of decoded file bytes; a decoder
exception is `none`; `_extract_text` itself never raises and returns `""` on
failure).  If decoding fails, or the extracted text is empty or shorter than
50 characters once stripped, the failed-sentinel profile is returned. -/
def parseSingleResume {β : Type} (b64decode : String → Option β)
    (extractText : β → String → String)
    (parseCandidateData : String → String → CandidateProfile)
    (fileContent filename : String) : CandidateProfile :=
  match b64decode fileContent with
  | none => createEmptyCandidate filename
  | some fileBytes =>
    let text := extractText fileBytes filename
    if text = "" ∨ text.trim.length < 50 then createEmptyCandidate filename
    else parseCandidateData text filename

/-! ## Bulk processor (`bulk_processor.py`) -/

/-- The failed-sentinel profile created when a parallel parse task raises
(bulk_processor.py:122-128). -/
def parseFailedProfile (filename : String) : CandidateProfile :=
  { name := "PARSE_FAILED_" ++ filename, email := "",
    source := some "Resume Upload - Parse Failed" }

/-- The chunked, order-preserving gather of `_parse_resumes_parallel`
(bulk_processor.py:110-132): tasks are awaited in chunks of `chunkSize`
(source constant 100) and each chunk's results are appended in task order, so
the output order equals the input order regardless of completion order. -/
def chunkedMap {α β : Type} (g : α → β) (chunkSize : Nat) : List α → List β
  | [] => []
  | x :: xs =>
    ((x :: xs).take chunkSize).map g ++ chunkedMap g chunkSize (xs.drop (chunkSize - 1))
termination_by xs => xs.length
decreasing_by
  simp only [List.length_drop, List.length_cons]
  omega

/-- `BulkProcessor._parse_resumes_parallel` (bulk_processor.py:91-132): one
profile per input pair, in input order; an exception from the per-item parser
becomes a `PARSE_FAILED` sentinel profile. -/
def parseResumesParallel (parse : String → String → Except String CandidateProfile)
    (resumeFiles fileNames : List String) : List CandidateProfile :=
  chunkedMap (fun pr =>
    match parse pr.1 pr.2 with
    | .ok c => c
    | .error _ => parseFailedProfile pr.2) 100 (resumeFiles.zip fileNames)

/-- The per-candidate validation record of `_validate_candidates`
(bulk_processor.py:176-185). -/
structure ValidationResult where
  filename : String
  candidate_name : String
  email : String
  success : Bool
  issues : List String
  skills_count : Nat
  experience_years : Int
deriving Repr, DecidableEq, Inhabited

/-- The issue list collected for one candidate by `_validate_candidates`
(bulk_processor.py:147-174), in source order.  `validCandidates` is the list
of already-accepted candidates of the same batch, used by the duplicate-email
check. -/
def validationIssues (validCandidates : List CandidateProfile)
    (c : CandidateProfile) : List String :=
  (if c.name = "" ∨ c.name.startsWith "PARSE_FAILED" then ["Invalid or missing name"] else []) ++
  (if c.email = "" ∧ ¬ c.name.startsWith "PARSE_FAILED" then ["Missing email address"] else []) ++
  (if c.email ≠ "" ∧ ¬ c.email.contains '@' then ["Invalid email format"] else []) ++
  (if c.email ≠ "" ∧ validCandidates.any (fun e => e.email = c.email) then
    ["Duplicate email address"] else []) ++
  (if c.skills.isEmpty then ["No skills extracted"] else []) ++
  (if c.experience_years < 0 ∨ 50 < c.experience_years then ["Invalid experience years"] else [])

/-- The critical issues of `_validate_candidates` (bulk_processor.py:190-193):
they exclude a candidate from persistence. -/
def criticalIssues : List String :=
  ["Invalid or missing name", "Duplicate email address"]

/-- `any(issue in validation_issues for issue in critical_issues)`
(bulk_processor.py:195). -/
def hasCriticalIssues (validCandidates : List CandidateProfile)
    (c : CandidateProfile) : Bool :=
  criticalIssues.any (fun ci => (validationIssues validCandidates c).contains ci)

/-- The validation record built for one candidate (bulk_processor.py:176-201);
its final `success` flag is the critical-issue check (the initial
`len(validation_issues) == 0` value is overwritten at lines 199-201). -/
def mkValidationResult (validCandidates : List CandidateProfile)
    (c : CandidateProfile) (filename : String) : ValidationResult :=
  { filename := filename
    candidate_name := c.name
    email := c.email
    success := ! hasCriticalIssues validCandidates c
    issues := validationIssues validCandidates c
    skills_count := c.skills.length
    experience_years := c.experience_years }

/-- The loop of `BulkProcessor._validate_candidates` (bulk_processor.py:134-205)
over (candidate, filename) pairs, threading the accepted-candidates
accumulator; returns the accepted candidates and the validation records. -/
def validateLoop (validCandidates : List CandidateProfile) :
    List (CandidateProfile × String) → List CandidateProfile × List ValidationResult
  | [] => (validCandidates, [])
  | (c, fn) :: rest =>
    let r := mkValidationResult validCandidates c fn
    let valid' := if hasCriticalIssues validCandidates c then validCandidates
                  else validCandidates ++ [c]
    let res := validateLoop valid' rest
    (res.1, r :: res.2)

/-- `BulkProcessor._validate_candidates`, started with an empty accepted list. -/
def validateCandidates (pairs : List (CandidateProfile × String)) :
    List CandidateProfile × List ValidationResult :=
  validateLoop [] pairs

/-- One entry of the `stored_candidates` list built by
`_store_candidates_batch` (bulk_processor.py:224-262).  The failure record of
the per-record fallback carries no skills/experience keys, modelled as
`none`. -/
structure StoredCandidate where
  id : Option Nat
  name : String
  email : String
  skills : Option (List String)
  experience_years : Option Int
  success : Bool
  error : Option String
deriving Repr, DecidableEq, Inhabited

/-- The persistence collaborator (`DatabaseManager.create_candidates_bulk` /
`create_candidate`): each call either returns ids (one per profile for the
bulk call) or raises, modelled with `Except`. -/
structure DbModel where
  createBulk : List CandidateProfile → Except String (List Nat)
  createOne : CandidateProfile → Except String Nat

/-- The success record appended for a stored candidate
(bulk_processor.py:225-233 and 244-252). -/
def successRecord (cid : Nat) (c : CandidateProfile) : StoredCandidate :=
  { id := some cid, name := c.name, email := c.email, skills := some c.skills,
    experience_years := some c.experience_years, success := true, error := none }

/-- One iteration of the per-record fallback loop (bulk_processor.py:241-262):
an individual insert attempt recorded as success with the assigned id, or as
failure with the error detail. -/
def individualStore (db : DbModel) (c : CandidateProfile) : StoredCandidate :=
  match db.createOne c with
  | .ok cid => successRecord cid c
  | .error e =>
    { id := none, name := c.name, email := c.email, skills := none,
      experience_years := none, success := false, error := some e }

/-- `BulkProcessor._store_candidates_batch` (bulk_processor.py:207-264):
process candidates in batches of `self.batch_size = 50`; try the atomic bulk
insert, and on its failure fall back to one individual insert attempt per
candidate of the batch, in batch order, recording every outcome. -/
def storeCandidatesBatch (db : DbModel) : List CandidateProfile → List StoredCandidate
  | [] => []
  | c :: cs =>
    (match db.createBulk ((c :: cs).take 50) with
     | .ok ids => (ids.zip ((c :: cs).take 50)).map (fun p => successRecord p.1 p.2)
     | .error _ => ((c :: cs).take 50).map (individualStore db)) ++
      storeCandidatesBatch db ((c :: cs).drop 50)
termination_by cs => cs.length
decreasing_by
  simp only [List.length_drop, List.length_cons]
  omega

/-- One entry of the final result list built by `_compile_processing_results`
(bulk_processor.py:299-342). -/
structure ProcessingResult where
  filename : String
  candidate_name : String
  email : String
  success : Bool
  candidate_id : Option Nat
  skills_count : Nat
  experience_years : Int
  validation_issues : List String
  storage_error : Option String
  message : String
deriving Repr, DecidableEq, Inhabited

/-- The name-keyed storage map of `_compile_processing_results`
(bulk_processor.py:310): a Python dict comprehension keeps the last record per
name; `storage_map.get(name)` returns it, or nothing. -/
def storageMapGet (stored : List StoredCandidate) (n : String) : Option StoredCandidate :=
  stored.reverse.find? (fun s => s.name = n)

/-- `BulkProcessor._generate_result_message` (bulk_processor.py:344-366). -/
def generateResultMessage (success : Bool) (vr : ValidationResult)
    (sr : Option StoredCandidate) : String :=
  if success then
    "Successfully processed - " ++ toString vr.skills_count ++ " skills, " ++
      toString vr.experience_years ++ " years experience"
  else
    let msgs :=
      (if ¬ vr.issues.isEmpty then
        ["Validation issues: " ++ String.intercalate ", " vr.issues] else []) ++
      (match sr.bind (fun s => s.error) with
       | some e => ["Storage error: " ++ e]
       | none => [])
    if msgs.isEmpty then "Processing failed" else String.intercalate "; " msgs

/-- `BulkProcessor._compile_processing_results` (bulk_processor.py:299-342):
one result per validation record, in input order, with `filename` taken from
the input file-name list at the same index. -/
def compileProcessingResults (validationResults : List ValidationResult)
    (stored : List StoredCandidate) (fileNames : List String) : List ProcessingResult :=
  (validationResults.zip fileNames).map (fun pr =>
    let vr := pr.1
    let sr := storageMapGet stored vr.candidate_name
    let storageSuccess := (sr.map (fun s => s.success)).getD false
    let overallSuccess := vr.success && storageSuccess
    { filename := pr.2
      candidate_name := vr.candidate_name
      email := vr.email
      success := overallSuccess
      candidate_id := sr.bind (fun s => s.id)
      skills_count := vr.skills_count
      experience_years := vr.experience_years
      validation_issues := vr.issues
      storage_error := sr.bind (fun s => s.error)
      message := generateResultMessage overallSuccess vr sr })

/-- `BulkProcessor.process_resumes_bulk` (bulk_processor.py:31-89): parse in
parallel, validate, store in batches, compile results.  The optional
match-score phase (bulk_processor.py:66-74, `_generate_match_scores`) only
logs and does not alter the result list, so it is omitted. -/
def processResumesBulk (parse : String → String → Except String CandidateProfile)
    (db : DbModel) (resumeFiles fileNames : List String) : List ProcessingResult :=
  let parsed := parseResumesParallel parse resumeFiles fileNames
  let vres := validateCandidates (parsed.zip fileNames)
  let stored := storeCandidatesBatch db vres.1
  compileProcessingResults vres.2 stored fileNames

/-! ## Resume parser: `ResumeParser._extract_experience_years`
(resume_parser.py:309-333)

The four `experience_patterns` (resume_parser.py:74-79) and the fallback year
scan are embedded as explicit character-list matchers.  The patterns contain
no constructs needing general backtracking on these inputs: every maximal
munch (`\d+`, `\s*`) is followed by a character it cannot consume, and each
optional group, when taken, starts with a character distinct from what follows
it, so greedy matching agrees with Python's regex engine. -/

/-- `\s*`: drop leading whitespace. -/
def dropSpaces (cs : List Char) : List Char := cs.dropWhile (fun c => c.isWhitespace)

/-- `(\d+)`: maximal leading digit run and the rest; fails when empty. -/
def takeDigits (cs : List Char) : Option (List Char × List Char) :=
  let ds := cs.takeWhile (fun c => c.isDigit)
  if ds.isEmpty then none else some (ds, cs.dropWhile (fun c => c.isDigit))

/-- `x?`: drop one optional literal character. -/
def dropOptChar (c : Char) : List Char → List Char
  | [] => []
  | a :: as_ => if a = c then as_ else a :: as_

/-- Literal match, returning the rest of the input on success. -/
def dropLit : List Char → List Char → Option (List Char)
  | [], cs => some cs
  | _ :: _, [] => none
  | l :: ls, c :: cs => if c = l then dropLit ls cs else none

/-- The tail `\+?\s*W s?\s*(?:of\s*)?(?:experience|exp)` of patterns 1 and 2,
where `W` is `year` or `yr`. -/
def matchExpTail (word : List Char) (cs : List Char) : Bool :=
  let cs := dropOptChar '+' cs
  let cs := dropSpaces cs
  match dropLit word cs with
  | none => false
  | some cs =>
    let cs := dropOptChar 's' cs
    let cs := dropSpaces cs
    let tryExp := fun cs2 =>
      (dropLit "experience".data cs2).isSome || (dropLit "exp".data cs2).isSome
    (match dropLit "of".data cs with
     | some cs2 => tryExp (dropSpaces cs2) || tryExp cs
     | none => tryExp cs)

/-- The tail `\+?\s*years?\s*in\s*(?:the\s*)?(?:field|industry)` of pattern 4. -/
def matchFieldTail (cs : List Char) : Bool :=
  let cs := dropOptChar '+' cs
  let cs := dropSpaces cs
  match dropLit "year".data cs with
  | none => false
  | some cs =>
    let cs := dropOptChar 's' cs
    let cs := dropSpaces cs
    match dropLit "in".data cs with
    | none => false
    | some cs =>
      let cs := dropSpaces cs
      let tryFI := fun cs2 =>
        (dropLit "field".data cs2).isSome || (dropLit "industry".data cs2).isSome
      (match dropLit "the".data cs with
       | some cs2 => tryFI (dropSpaces cs2) || tryFI cs
       | none => tryFI cs)

/-- A pattern starting with the capture group `(\d+)`: on a match at this
position, return the captured digits (what `re.findall` yields). -/
def matchDigitsPattern (tail : List Char → Bool) (cs : List Char) : Option (List Char) :=
  match takeDigits cs with
  | none => none
  | some (ds, rest) => if tail rest then some ds else none

/-- Pattern 3, `experience\s*:\s*(\d+)\+?\s*years?`, at this position. -/
def matchPattern3At (cs : List Char) : Option (List Char) :=
  match dropLit "experience".data cs with
  | none => none
  | some cs =>
    match dropSpaces cs with
    | ':' :: cs =>
      let cs := dropSpaces cs
      match takeDigits cs with
      | none => none
      | some (ds, rest) =>
        let rest := dropOptChar '+' rest
        let rest := dropSpaces rest
        match dropLit "year".data rest with
        | none => none
        | some _ => some ds
    | _ => none

/-- Leftmost match of a pattern: try every position left to right
(`re.findall`'s first element is the leftmost match's group). -/
def findFirstMatch (matchAt : List Char → Option (List Char)) :
    List Char → Option (List Char)
  | [] => matchAt []
  | c :: cs =>
    match matchAt (c :: cs) with
    | some g => some g
    | none => findFirstMatch matchAt cs

/-- `int(...)` on a digit string. -/
def digitsToNat (ds : List Char) : Nat :=
  ds.foldl (fun n c => n * 10 + (c.toNat - '0'.toNat)) 0

/-- The `for pattern in self.experience_patterns` loop
(resume_parser.py:311-318) over the lowercased text (`re.IGNORECASE`): the
first pattern with a match yields the integer value of its captured digits. -/
def explicitExperienceMatch (textLower : List Char) : Option Nat :=
  match findFirstMatch (matchDigitsPattern (matchExpTail "year".data)) textLower with
  | some ds => some (digitsToNat ds)
  | none =>
    match findFirstMatch (matchDigitsPattern (matchExpTail "yr".data)) textLower with
    | some ds => some (digitsToNat ds)
    | none =>
      match findFirstMatch matchPattern3At textLower with
      | some ds => some (digitsToNat ds)
      | none =>
        match findFirstMatch (matchDigitsPattern matchFieldTail) textLower with
        | some ds => some (digitsToNat ds)
        | none => none

/-- The section keyword list of `_extract_section` (resume_parser.py:454-457). -/
def sectionKeywordsAll : List String :=
  ["experience", "education", "skills", "projects", "certifications",
   "achievements", "awards", "references", "summary", "objective"]

/-- `any(keyword in line.lower().strip() for keyword in keywords)`. -/
def lineMatchesAny (line : String) (keywords : List String) : Bool :=
  keywords.any (fun k => containsSubStr line.toLower.trim k)

/-- `ResumeParser._extract_section` (resume_parser.py:437-469): find the first
line containing a section keyword, then cut at the first later non-empty line
that names another section, and rejoin with newlines. -/
def extractSection (text : String) (sectionKeywords : List String) : Option String :=
  let lines := text.splitOn "\n"
  match lines.findIdx? (fun line => lineMatchesAny line sectionKeywords) with
  | none => none
  | some startIdx =>
    let rest := lines.drop (startIdx + 1)
    let endIdx :=
      match rest.findIdx? (fun line =>
        let ll := line.toLower.trim
        !(ll == "") && sectionKeywordsAll.any (fun k => containsSubStr ll k) &&
          !(sectionKeywords.any (fun k => containsSubStr ll k))) with
      | some k => startIdx + 1 + k
      | none => lines.length
    some (String.intercalate "\n" ((lines.drop startIdx).take (endIdx - startIdx)))

/-- `re.findall(r'(19|20)\d{2}', section)` (resume_parser.py:324-325) followed
by `int(...)`: because the pattern has the capture group `(19|20)`, `findall`
returns the CENTURY PREFIX of each matched 4-digit year, so every entry is 19
or 20 — not the year value. -/
def findYearGroups : List Char → List Nat
  | a :: b :: c2 :: d :: rest =>
    if ((a = '1' ∧ b = '9') ∨ (a = '2' ∧ b = '0')) ∧ c2.isDigit ∧ d.isDigit then
      (if a = '1' then 19 else 20) :: findYearGroups rest
    else
      findYearGroups (b :: c2 :: d :: rest)
  | _ => []

/-- The year values the claim (and the spec's `max(year) - min(year)`)
attribute to the fallback: the full 4-digit value of every year the pattern
`(19|20)\d{2}` matches.  Written only for comparison with the code's
`findYearGroups`. -/
def claimedYearValues : List Char → List Nat
  | a :: b :: c2 :: d :: rest =>
    if ((a = '1' ∧ b = '9') ∨ (a = '2' ∧ b = '0')) ∧ c2.isDigit ∧ d.isDigit then
      (1000 * (a.toNat - '0'.toNat) + 100 * (b.toNat - '0'.toNat) +
        10 * (c2.toNat - '0'.toNat) + (d.toNat - '0'.toNat)) :: claimedYearValues rest
    else
      claimedYearValues (b :: c2 :: d :: rest)
  | _ => []

/-- `ResumeParser._extract_experience_years` (resume_parser.py:309-333): first
the explicit patterns (value capped at 50), else the experience-section
fallback computing `min(max(years_int) - min(years_int), 50)` over the findall
results when there are at least two, else 0. -/
def extractExperienceYears (text : String) : Nat :=
  match explicitExperienceMatch text.toLower.data with
  | some years => min years 50
  | none =>
    match extractSection text ["experience", "work history", "employment"] with
    | none => 0
    | some sec =>
      match findYearGroups sec.data with
      | y1 :: y2 :: rest =>
        min (((y2 :: rest).foldl max y1) - ((y2 :: rest).foldl min y1)) 50
      | _ => 0

/-- A résumé text on which no explicit experience pattern matches and whose
experience section contains the two 4-digit years 2010 and 2020. -/
def c8Text : String := "John Doe\nexperience\nAcme Corp 2010 - 2020\n"

/-- A candidate with a missing name (a critical validation issue) and a
non-empty email, used to probe the duplicate-email rule. -/
def noNameCandidate : CandidateProfile :=
  { name := "", email := "dup@example.com", skills := ["Python"], experience_years := 1 }

/-- A valid candidate sharing `noNameCandidate`'s email. -/
def secondWithSameEmail : CandidateProfile :=
  { name := "John Smith", email := "dup@example.com", skills := ["Python"],
    experience_years := 2 }

/-- A fully valid candidate, accepted by validation. -/
def acceptedCandidate : CandidateProfile :=
  { name := "Alice Jones", email := "alice@example.com", skills := ["Python"],
    experience_years := 3 }

/-- A valid candidate sharing `acceptedCandidate`'s email. -/
def laterDuplicate : CandidateProfile :=
  { name := "Bob Stone", email := "alice@example.com", skills := ["Java"],
    experience_years := 4 }

/-! ## Theorems -/

theorem pyMin_eq_min (a b : ℚ) : pyMin a b = min a b := (min_def a b).symm

theorem pyMax_eq_max (a b : ℚ) : pyMax a b = max a b := (max_def a b).symm

/-- The below-minimum branch of the experience score never reaches 1. -/
theorem experience_below_lt_one (g : Int) (_hg : 1 ≤ g) :
    (if g ≤ 1 then (8/10 : ℚ) else if g ≤ 2 then 6/10
     else max (2/10) (1 - (g : ℚ) * (2/10))) < 1 := by
  split_ifs with g1 g2
  · norm_num
  · norm_num
  · have hg3 : (3 : ℤ) ≤ g := by omega
    have hc : (3 : ℚ) ≤ (g : ℚ) := by exact_mod_cast hg3
    apply max_lt
    · norm_num
    · nlinarith

/-- The above-maximum branch of the experience score never reaches 1. -/
theorem experience_above_lt_one (g : Int) :
    (if g ≤ 2 then (9/10 : ℚ) else if g ≤ 5 then 8/10 else 7/10) < 1 := by
  split_ifs <;> norm_num

/-- C3 counterexample: with a degenerate range min 10 > max 0 and 5 years of
experience, both "below min" and "above max" hold; the code takes the below-min
branch (score 2/10, "Under-qualified"), contradicting the claim's over-qualified
clause, which demands score 8/10 (gap 5 ≤ 5) and fit "Over-qualified". -/
theorem experience_score_overqualified_clause_fails :
    (5 : ℤ) > 0 ∧
    (calculateExperienceMatch 5 (some 10) (some 0)).1 ≠ 8/10 ∧
    (calculateExperienceMatch 5 (some 10) (some 0)).2.1 ≠ "Over-qualified" := by
  have h : calculateExperienceMatch 5 (some 10) (some 0) =
      (max (2/10) (1 - (5 : ℚ) * (2/10)), "Under-qualified", 5) := by
    norm_num [calculateExperienceMatch, pyMax_eq_max]
  have hmax : max (2/10 : ℚ) (1 - (5 : ℚ) * (2/10)) = 2/10 := by
    rw [max_eq_left]
    norm_num
  refine ⟨by norm_num, ?_, ?_⟩ <;> rw [h]
  · rw [hmax]
    norm_num
  · decide

/-- C3 (amended): the experience sub-score for explicit integer bounds, stated
as the claim's piecewise table: it is 1 iff the candidate is within the range,
below-min values follow the gap table with fit "Under-qualified", and — for a
well-formed range (min ≤ max) — above-max values follow the gap table with fit
"Over-qualified". -/
theorem experience_score_piecewise (y m M : Int) :
    ((calculateExperienceMatch y (some m) (some M)).1 = 1 ↔ m ≤ y ∧ y ≤ M) ∧
    (y < m →
      (calculateExperienceMatch y (some m) (some M)).2.1 = "Under-qualified" ∧
      (calculateExperienceMatch y (some m) (some M)).1 =
        (if m - y ≤ 1 then 8/10 else if m - y ≤ 2 then 6/10
         else max (2/10) (1 - ((m - y : ℤ) : ℚ) * (2/10)))) ∧
    (m ≤ M → y > M →
      (calculateExperienceMatch y (some m) (some M)).2.1 = "Over-qualified" ∧
      (calculateExperienceMatch y (some m) (some M)).1 =
        (if y - M ≤ 2 then 9/10 else if y - M ≤ 5 then 8/10 else 7/10)) := by
  unfold calculateExperienceMatch
  simp only [Option.getD, pyMax_eq_max]
  by_cases h1 : y < m
  · rw [if_pos h1]
    refine ⟨⟨fun hs => ?_, fun hm => absurd h1 (not_lt.mpr hm.1)⟩,
            fun _ => ⟨rfl, rfl⟩, fun hmM h2 => absurd h2 (by omega)⟩
    exact absurd hs (ne_of_lt (experience_below_lt_one (m - y) (by omega)))
  · rw [if_neg h1]
    by_cases h2 : y > M
    · rw [if_pos h2]
      refine ⟨⟨fun hs => ?_, fun hM => absurd h2 (not_lt.mpr hM.2)⟩,
              fun h => absurd h h1, fun _ _ => ⟨rfl, rfl⟩⟩
      exact absurd hs (ne_of_lt (experience_above_lt_one (y - M)))
    · rw [if_neg h2]
      exact ⟨⟨fun _ => ⟨by omega, by omega⟩, fun _ => rfl⟩,
             fun h => absurd h h1, fun _ h => absurd h h2⟩

/-- The below-minimum gap table stays at or below its first entry 8/10. -/
theorem experience_below_le_eight (g : Int) :
    (if g ≤ 1 then (8/10 : ℚ) else if g ≤ 2 then 6/10
     else max (2/10) (1 - (g : ℚ) * (2/10))) ≤ 8/10 := by
  split_ifs with a1 a2
  · exact le_refl _
  · norm_num
  · apply max_le
    · norm_num
    · have : (3 : ℚ) ≤ (g : ℚ) := by exact_mod_cast (by omega : (3 : ℤ) ≤ g)
      nlinarith

/-- The below-minimum gap table is monotone non-increasing in the gap. -/
theorem experience_below_antitone (g1 g2 : Int) (_h1 : 1 ≤ g1) (h12 : g1 ≤ g2) :
    (if g2 ≤ 1 then (8/10 : ℚ) else if g2 ≤ 2 then 6/10
     else max (2/10) (1 - (g2 : ℚ) * (2/10))) ≤
    (if g1 ≤ 1 then (8/10 : ℚ) else if g1 ≤ 2 then 6/10
     else max (2/10) (1 - (g1 : ℚ) * (2/10))) := by
  have hcast : (g1 : ℚ) ≤ (g2 : ℚ) := by exact_mod_cast h12
  by_cases c1 : g1 ≤ 1
  · rw [if_pos c1]
    exact experience_below_le_eight g2
  · rw [if_neg c1]
    by_cases c2 : g1 ≤ 2
    · rw [if_pos c2]
      by_cases d2 : g2 ≤ 2
      · rw [if_neg (by omega : ¬ g2 ≤ 1), if_pos d2]
      · rw [if_neg (by omega : ¬ g2 ≤ 1), if_neg d2]
        apply max_le
        · norm_num
        · have : (3 : ℚ) ≤ (g2 : ℚ) := by exact_mod_cast (by omega : (3 : ℤ) ≤ g2)
          nlinarith
    · rw [if_neg c2, if_neg (by omega : ¬ g2 ≤ 1), if_neg (by omega : ¬ g2 ≤ 2)]
      exact max_le_max (le_refl _) (by nlinarith)

/-- The above-maximum gap table is monotone non-increasing in the gap. -/
theorem experience_above_antitone (g1 g2 : Int) (h12 : g1 ≤ g2) :
    (if g2 ≤ 2 then (9/10 : ℚ) else if g2 ≤ 5 then 8/10 else 7/10) ≤
    (if g1 ≤ 2 then (9/10 : ℚ) else if g1 ≤ 5 then 8/10 else 7/10) := by
  split_ifs <;> first | exact le_refl _ | omega | norm_num

/-- C4 counterexample: candidates 21 and 22 years against range [0, 20] have
gaps 1 < 2 beyond the maximum but identical experience scores (both 9/10), so
the score is not strictly decreasing in the gap. -/
theorem experience_score_not_strictly_decreasing :
    (21 : ℤ) > 20 ∧ (22 : ℤ) > 20 ∧ (22 : ℤ) - 20 > (21 : ℤ) - 20 ∧
    ¬ ((calculateExperienceMatch 22 (some 0) (some 20)).1 <
       (calculateExperienceMatch 21 (some 0) (some 20)).1) := by
  refine ⟨by norm_num, by norm_num, by norm_num, ?_⟩
  have h1 : calculateExperienceMatch 22 (some 0) (some 20) = (9/10, "Over-qualified", 2) := by
    norm_num [calculateExperienceMatch]
  have h2 : calculateExperienceMatch 21 (some 0) (some 20) = (9/10, "Over-qualified", 1) := by
    norm_num [calculateExperienceMatch]
  rw [h1, h2]
  exact lt_irrefl _

/-- C4 (amended): for a well-formed range (min ≤ max) the experience sub-score
is monotone non-increasing in the gap beyond either bound: among two candidates
both below the minimum (or both above the maximum), the one with the larger gap
scores no higher. -/
theorem experience_score_gap_antitone (m M y1 y2 : Int) (hmM : m ≤ M) :
    (y1 < m → y2 < m → m - y1 ≤ m - y2 →
      (calculateExperienceMatch y2 (some m) (some M)).1 ≤
      (calculateExperienceMatch y1 (some m) (some M)).1) ∧
    (y1 > M → y2 > M → y1 - M ≤ y2 - M →
      (calculateExperienceMatch y2 (some m) (some M)).1 ≤
      (calculateExperienceMatch y1 (some m) (some M)).1) := by
  constructor
  · intro hy1 hy2 hgap
    have e1 := (experience_score_piecewise y1 m M).2.1 hy1
    have e2 := (experience_score_piecewise y2 m M).2.1 hy2
    rw [e1.2, e2.2]
    exact experience_below_antitone (m - y1) (m - y2) (by omega) hgap
  · intro hy1 hy2 hgap
    have e1 := (experience_score_piecewise y1 m M).2.2 hmM hy1
    have e2 := (experience_score_piecewise y2 m M).2.2 hmM hy2
    rw [e1.2, e2.2]
    exact experience_above_antitone (y1 - M) (y2 - M) hgap

/-- C4 witness: the amended monotonicity applied at range [10, 20] with
candidates 8 and 6 years, both below the minimum (gaps 2 ≤ 4). -/
theorem experience_score_gap_antitone_witness :
    ((8 : ℤ) < 10 → (6 : ℤ) < 10 → (10 : ℤ) - 8 ≤ 10 - 6 →
      (calculateExperienceMatch 6 (some 10) (some 20)).1 ≤
      (calculateExperienceMatch 8 (some 10) (some 20)).1) ∧
    ((8 : ℤ) > 20 → (6 : ℤ) > 20 → (8 : ℤ) - 20 ≤ 6 - 20 →
      (calculateExperienceMatch 6 (some 10) (some 20)).1 ≤
      (calculateExperienceMatch 8 (some 10) (some 20)).1) :=
  experience_score_gap_antitone 10 20 8 6 (by norm_num)

/-- C2: in scenario B the skill sub-score is 1/2 with SQL missing, the
experience, location, education and salary sub-scores are all 1, the overall
score is 0.80 and the recommendation tier is "Strong Match". -/
theorem scenarioB_match_scores :
    (calculateMatchScore scenarioBCandidate scenarioBJob).skill_match_score = 1/2 ∧
    (calculateMatchScore scenarioBCandidate scenarioBJob).missing_skills = ["SQL"] ∧
    (calculateMatchScore scenarioBCandidate scenarioBJob).experience_match_score = 1 ∧
    (calculateMatchScore scenarioBCandidate scenarioBJob).location_match_score = 1 ∧
    (calculateMatchScore scenarioBCandidate scenarioBJob).education_match_score = 1 ∧
    (calculateMatchScore scenarioBCandidate scenarioBJob).salary_match_score = 1 ∧
    (calculateMatchScore scenarioBCandidate scenarioBJob).overall_match_score = 80/100 ∧
    (calculateMatchScore scenarioBCandidate scenarioBJob).recommendation = "Strong Match" := by
  refine ⟨?_, ?_, ?_, ?_, ?_, ?_, ?_, ?_⟩ <;> with_unfolding_all decide

/-- C3 witness: the piecewise statement instantiated at years 2, range [4, 6]. -/
theorem experience_score_piecewise_witness :
    ((calculateExperienceMatch 2 (some 4) (some 6)).1 = 1 ↔ (4 : ℤ) ≤ 2 ∧ (2 : ℤ) ≤ 6) ∧
    ((2 : ℤ) < 4 →
      (calculateExperienceMatch 2 (some 4) (some 6)).2.1 = "Under-qualified" ∧
      (calculateExperienceMatch 2 (some 4) (some 6)).1 =
        (if (4 : ℤ) - 2 ≤ 1 then 8/10 else if (4 : ℤ) - 2 ≤ 2 then 6/10
         else max (2/10) (1 - (((4 : ℤ) - 2 : ℤ) : ℚ) * (2/10)))) ∧
    ((4 : ℤ) ≤ 6 → (2 : ℤ) > 6 →
      (calculateExperienceMatch 2 (some 4) (some 6)).2.1 = "Over-qualified" ∧
      (calculateExperienceMatch 2 (some 4) (some 6)).1 =
        (if (2 : ℤ) - 6 ≤ 2 then 9/10 else if (2 : ℤ) - 6 ≤ 5 then 8/10 else 7/10)) :=
  experience_score_piecewise 2 4 6

/-- Closed form for the bonus component of the preferred-skill loop: the
initial bonus plus 1/10 for each preferred skill the candidate holds. -/
theorem prefFold_fst (cl : List String) (ps : List String) (acc : ℚ × List String) :
    (ps.foldl (prefStep cl) acc).1 =
      acc.1 + ((ps.filter (fun p => cl.contains p.toLower)).length : ℚ) * (1/10) := by
  induction ps generalizing acc with
  | nil => simp
  | cons p ps ih =>
    rw [List.foldl_cons, List.filter_cons]
    by_cases h : cl.contains p.toLower
    · rw [if_pos h, ih, List.length_cons]
      simp only [prefStep, h, if_true]
      push_cast
      ring
    · rw [if_neg h, ih]
      simp only [prefStep, h, Bool.false_eq_true, if_false]

/-- C9: the skill score is monotone non-decreasing in the number of
exactly-matched required skills.  If one required skill `r` goes from
unmatched (award 0) to an exact case-insensitive match (award 1) while every
other required skill keeps its award and the candidate's preferred-skill
matches are unchanged, the final skill score does not decrease. -/
theorem skill_score_monotone_in_exact_matches
    (cand1 cand2 pre post pref : List String) (r : String)
    (h0 : skillAward cand1 r = 0)
    (h1 : skillAward cand2 r = 1)
    (hoth : ∀ s ∈ pre ++ post, skillAward cand1 s = skillAward cand2 s)
    (hpref : ∀ p ∈ pref,
      (cand1.map String.toLower).contains p.toLower =
      (cand2.map String.toLower).contains p.toLower) :
    (calculateSkillMatch cand1 (pre ++ r :: post) pref).1 ≤
    (calculateSkillMatch cand2 (pre ++ r :: post) pref).1 := by
  have hne : (pre ++ r :: post).isEmpty = false := by
    cases pre <;> simp [List.isEmpty]
  unfold calculateSkillMatch
  rw [hne]
  simp only [Bool.false_eq_true, if_false]
  rw [prefFold_fst, prefFold_fst]
  have hb : (pref.filter (fun p => (cand1.map String.toLower).contains p.toLower)).length =
      (pref.filter (fun p => (cand2.map String.toLower).contains p.toLower)).length := by
    rw [List.filter_congr (fun p hp => hpref p hp)]
  have hsum1 : ((pre ++ r :: post).map (skillAward cand1)).sum =
      (pre.map (skillAward cand1)).sum + (post.map (skillAward cand1)).sum := by
    rw [List.map_append, List.sum_append, List.map_cons, List.sum_cons, h0]
    ring
  have hsum2 : ((pre ++ r :: post).map (skillAward cand2)).sum =
      (pre.map (skillAward cand1)).sum + (post.map (skillAward cand1)).sum + 1 := by
    rw [List.map_append, List.sum_append, List.map_cons, List.sum_cons, h1]
    rw [List.map_congr_left (fun s hs => hoth s (List.mem_append_left _ hs)),
        List.map_congr_left (fun s hs => hoth s (List.mem_append_right _ hs))]
    ring
  rw [hsum1, hsum2, hb, pyMin_eq_min, pyMin_eq_min]
  apply min_le_min _ le_rfl
  apply add_le_add_right
  have hn : (0 : ℚ) < ((pre ++ r :: post).length : ℚ) := by
    have : 0 < (pre ++ r :: post).length := by
      simp [List.length_append]
    exact_mod_cast this
  exact (div_le_div_iff_of_pos_right hn).mpr (by linarith)

/-- C9 witness: candidate ["Java"] versus candidate ["Java", "SQL"] on the
required list ["Java", "SQL"]: turning SQL into an exact match does not
decrease the skill score. -/
theorem skill_score_monotone_witness :
    (calculateSkillMatch ["Java"] (["Java"] ++ "SQL" :: []) []).1 ≤
    (calculateSkillMatch ["Java", "SQL"] (["Java"] ++ "SQL" :: []) []).1 :=
  skill_score_monotone_in_exact_matches ["Java"] ["Java", "SQL"] ["Java"] [] [] "SQL"
    (by with_unfolding_all decide)
    (by with_unfolding_all decide)
    (by with_unfolding_all decide)
    (by with_unfolding_all decide)

/-- C10: every `MatchResult` built for persistence by `find_best_matches`
carries the hard-coded placeholder education and salary sub-scores 0.8, and at
a concrete instance (scenario B) those persisted sub-scores do not satisfy the
documented weighted-aggregation equation together with the persisted overall
score. -/
theorem find_best_matches_placeholder_scores :
    (∀ (job : JobRow) (cands : List CandidateRow) (lim : Nat) (minScore : ℚ)
       (m : MatchResult), m ∈ findBestMatches job cands lim minScore →
       m.education_match_score = 8/10 ∧ m.salary_match_score = 8/10) ∧
    (∃ m ∈ findBestMatches scenarioBJob [scenarioBCandidate] 20 (6/10),
       m.skill_match_score * (4/10) + m.experience_match_score * (25/100) +
       m.location_match_score * (15/100) + m.education_match_score * (1/10) +
       m.salary_match_score * (1/10) ≠ m.overall_match_score) := by
  constructor
  · intro job cands lim minScore m hm
    unfold findBestMatches at hm
    simp only [List.mem_map] at hm
    obtain ⟨x, -, rfl⟩ := hm
    exact ⟨rfl, rfl⟩
  · with_unfolding_all decide

/-- C10 witness: the placeholder property applied to the one match produced
for scenario B. -/
theorem find_best_matches_placeholder_scores_witness :
    ∃ m ∈ findBestMatches scenarioBJob [scenarioBCandidate] 20 (6/10),
      m.education_match_score = 8/10 ∧ m.salary_match_score = 8/10 := by
  obtain ⟨m, hm, -⟩ := find_best_matches_placeholder_scores.2
  exact ⟨m, hm, find_best_matches_placeholder_scores.1 _ _ _ _ m hm⟩

/-- The chunked gather equals a plain map whenever the chunk size is positive
(the source uses the constant 100). -/
theorem chunkedMap_eq_map {α β : Type} (g : α → β) (c : Nat) (hc : c ≠ 0) :
    ∀ xs : List α, chunkedMap g c xs = xs.map g
  | [] => by rw [chunkedMap]; rfl
  | x :: xs => by
    rw [chunkedMap, chunkedMap_eq_map g c hc (xs.drop (c - 1))]
    obtain ⟨k, rfl⟩ := Nat.exists_eq_succ_of_ne_zero hc
    simp only [Nat.succ_sub_one, Nat.add_sub_cancel, List.take_succ_cons, List.map_cons,
      List.cons_append]
    rw [← List.map_append, List.take_append_drop]
termination_by xs => xs.length
decreasing_by
  simp only [List.length_drop, List.length_cons]
  omega

/-- The validation loop produces one record per input pair, whose `filename`
is the pair's file name. -/
theorem validateLoop_filenames (pairs : List (CandidateProfile × String)) :
    ∀ validCandidates,
      ((validateLoop validCandidates pairs).2).map (fun r => r.filename) =
        pairs.map (fun p => p.2) := by
  induction pairs with
  | nil => intro validCandidates; rfl
  | cons p rest ih =>
    intro validCandidates
    simp only [validateLoop, List.map_cons]
    rw [ih]
    rfl

/-- The validation loop produces exactly one record per input pair. -/
theorem validateLoop_length (pairs : List (CandidateProfile × String)) :
    ∀ validCandidates, ((validateLoop validCandidates pairs).2).length = pairs.length := by
  induction pairs with
  | nil => intro validCandidates; rfl
  | cons p rest ih =>
    intro validCandidates
    simp only [validateLoop, List.length_cons]
    rw [ih]

/-- Result compilation copies the input file names positionally. -/
theorem compile_filenames (vres : List ValidationResult) (stored : List StoredCandidate)
    (names : List String) (h : names.length ≤ vres.length) :
    (compileProcessingResults vres stored names).map (fun r => r.filename) = names := by
  unfold compileProcessingResults
  rw [List.map_map]
  calc (vres.zip names).map _
      = (vres.zip names).map Prod.snd := List.map_congr_left (fun pr _ => rfl)
    _ = names := List.map_snd_zip vres names h

/-- C1: for equal-length input lists, the bulk pipeline returns exactly one
`ProcessingResult` per input, in input order, with `output[i].filename =
names[i]` — for every per-item parser behaviour and every database behaviour
(parse failures, validation failures and storage failures included). -/
theorem bulk_output_matches_input (parse : String → String → Except String CandidateProfile)
    (db : DbModel) (files names : List String) (h : files.length = names.length) :
    (processResumesBulk parse db files names).map (fun r => r.filename) = names ∧
    (processResumesBulk parse db files names).length = names.length := by
  have hplen : (parseResumesParallel parse files names).length = names.length := by
    rw [parseResumesParallel, chunkedMap_eq_map _ 100 (by norm_num),
      List.length_map, List.length_zip, h, min_self]
  have hvlen :
      (validateCandidates ((parseResumesParallel parse files names).zip names)).2.length =
        names.length := by
    rw [validateCandidates, validateLoop_length, List.length_zip, hplen, min_self]
  have h1 : (processResumesBulk parse db files names).map (fun r => r.filename) = names := by
    rw [processResumesBulk]
    exact compile_filenames _ _ _ (le_of_eq hvlen.symm)
  refine ⟨h1, ?_⟩
  have := congrArg List.length h1
  rwa [List.length_map] at this

/-- C1 witness: a two-file batch whose parses both raise and whose database
rejects everything still yields two results carrying the input file names. -/
theorem bulk_output_matches_input_witness :
    (processResumesBulk (fun _ _ => Except.error "boom")
      ⟨fun _ => Except.error "db down", fun _ => Except.error "db down"⟩
      ["aGk=", "eW8="] ["r1.txt", "r2.txt"]).map (fun r => r.filename) =
        ["r1.txt", "r2.txt"] ∧
    (processResumesBulk (fun _ _ => Except.error "boom")
      ⟨fun _ => Except.error "db down", fun _ => Except.error "db down"⟩
      ["aGk=", "eW8="] ["r1.txt", "r2.txt"]).length = 2 :=
  bulk_output_matches_input _ _ ["aGk=", "eW8="] ["r1.txt", "r2.txt"] rfl

/-- A character list is a prefix of itself followed by anything. -/
theorem isPrefixB_append_self : ∀ l m : List Char, isPrefixB l (l ++ m) = true
  | [], _ => rfl
  | a :: as_, m => by
    simp only [List.cons_append, isPrefixB, List.append_eq]
    rw [isPrefixB_append_self as_ m]
    simp

/-- The validation loop splits over list concatenation, threading the
accepted-candidates accumulator. -/
theorem validateLoop_append (v : List CandidateProfile)
    (xs ys : List (CandidateProfile × String)) :
    validateLoop v (xs ++ ys) =
      ((validateLoop (validateLoop v xs).1 ys).1,
       (validateLoop v xs).2 ++ (validateLoop (validateLoop v xs).1 ys).2) := by
  induction xs generalizing v with
  | nil => simp [validateLoop]
  | cons p rest ih =>
    cases p with
    | mk c fn =>
      simp only [List.cons_append, validateLoop, List.append_eq]
      rw [ih]

/-- C5 counterexample: when the first holder of an email is itself rejected by
a critical issue (missing name), a later candidate with the same non-empty
email is NOT flagged as a duplicate: it is accepted, passed to storage, and
its validation record succeeds, contrary to the claim that every later
candidate with that email is marked failed and excluded. -/
theorem duplicate_email_counterexample :
    noNameCandidate.email = secondWithSameEmail.email ∧
    secondWithSameEmail.email ≠ "" ∧
    (validateCandidates [(noNameCandidate, "a.txt"), (secondWithSameEmail, "b.txt")]).1 =
      [secondWithSameEmail] ∧
    ((validateCandidates [(noNameCandidate, "a.txt"), (secondWithSameEmail, "b.txt")]).2.map
      (fun r => r.success)) = [false, true] ∧
    ((validateCandidates [(noNameCandidate, "a.txt"), (secondWithSameEmail, "b.txt")]).2.map
      (fun r => r.issues)) = [["Invalid or missing name"], []] := by
  refine ⟨?_, ?_, ?_, ?_, ?_⟩ <;> with_unfolding_all decide

/-- C5 (amended): a later candidate whose non-empty email matches an
already-ACCEPTED candidate of the same batch is marked failed with a
"Duplicate email address" issue, and the accepted-candidates list handed to
the storage stage is unchanged by it (first accepted occurrence wins). -/
theorem duplicate_email_flagged (pre post : List (CandidateProfile × String))
    (c : CandidateProfile) (fn : String)
    (he : c.email ≠ "")
    (hdup : ∃ a ∈ (validateCandidates pre).1, a.email = c.email) :
    "Duplicate email address" ∈ (mkValidationResult (validateCandidates pre).1 c fn).issues ∧
    (mkValidationResult (validateCandidates pre).1 c fn).success = false ∧
    validateCandidates (pre ++ (c, fn) :: post) =
      ((validateLoop (validateCandidates pre).1 post).1,
       (validateCandidates pre).2 ++
         mkValidationResult (validateCandidates pre).1 c fn ::
           (validateLoop (validateCandidates pre).1 post).2) := by
  simp only [validateCandidates] at hdup ⊢
  have hdupB : ((validateLoop [] pre).1.any fun e => e.email = c.email) = true := by
    obtain ⟨a, ha, hae⟩ := hdup
    exact List.any_eq_true.mpr ⟨a, ha, by simp [hae]⟩
  have hmem : "Duplicate email address" ∈ validationIssues (validateLoop [] pre).1 c := by
    unfold validationIssues
    refine List.mem_append_left _ (List.mem_append_left _ (List.mem_append_right _ ?_))
    rw [if_pos ⟨he, hdupB⟩]
    exact List.mem_singleton_self _
  have hcrit : hasCriticalIssues (validateLoop [] pre).1 c = true := by
    unfold hasCriticalIssues
    apply List.any_eq_true.mpr
    refine ⟨"Duplicate email address", by simp [criticalIssues], ?_⟩
    simpa using hmem
  refine ⟨hmem, by simp [mkValidationResult, hcrit], ?_⟩
  rw [validateLoop_append]
  have hstep : validateLoop (validateLoop [] pre).1 ((c, fn) :: post) =
      ((validateLoop (validateLoop [] pre).1 post).1,
        mkValidationResult (validateLoop [] pre).1 c fn ::
          (validateLoop (validateLoop [] pre).1 post).2) := by
    simp only [validateLoop, hcrit, if_true]
  rw [hstep]

/-- C5 witness: the amended rule applied to a batch whose first candidate is
accepted and whose second candidate reuses the same email. -/
theorem duplicate_email_flagged_witness :
    "Duplicate email address" ∈
      (mkValidationResult (validateCandidates [(acceptedCandidate, "a.txt")]).1
        laterDuplicate "b.txt").issues ∧
    (mkValidationResult (validateCandidates [(acceptedCandidate, "a.txt")]).1
        laterDuplicate "b.txt").success = false ∧
    validateCandidates ([(acceptedCandidate, "a.txt")] ++ (laterDuplicate, "b.txt") :: []) =
      ((validateLoop (validateCandidates [(acceptedCandidate, "a.txt")]).1 []).1,
       (validateCandidates [(acceptedCandidate, "a.txt")]).2 ++
         mkValidationResult (validateCandidates [(acceptedCandidate, "a.txt")]).1
           laterDuplicate "b.txt" ::
           (validateLoop (validateCandidates [(acceptedCandidate, "a.txt")]).1 []).2) :=
  duplicate_email_flagged [(acceptedCandidate, "a.txt")] [] laterDuplicate "b.txt"
    (by with_unfolding_all decide) (by with_unfolding_all decide)

/-- C6: when the atomic bulk insert of the first batch (up to 50 candidates)
fails, the stored-candidates output records exactly one individual-insert
outcome per candidate of that batch, in batch order — so no candidate of the
failed batch is lost — followed by the processing of the remaining batches. -/
theorem batch_failure_individual_fallback (db : DbModel) (cands : List CandidateProfile)
    (e : String) (hfail : db.createBulk (cands.take 50) = Except.error e) :
    storeCandidatesBatch db cands =
      (cands.take 50).map (individualStore db) ++ storeCandidatesBatch db (cands.drop 50) ∧
    ((cands.take 50).map (individualStore db)).map (fun s => s.name) =
      (cands.take 50).map (fun c => c.name) ∧
    ((cands.take 50).map (individualStore db)).length = (cands.take 50).length := by
  refine ⟨?_, ?_, by rw [List.length_map]⟩
  · cases cands with
    | nil => simp [storeCandidatesBatch]
    | cons c cs =>
      rw [storeCandidatesBatch, hfail]
  · rw [List.map_map]
    apply List.map_congr_left
    intro c _
    cases hdb : db.createOne c <;> simp [individualStore, hdb, successRecord]

/-- C6 witness: a three-candidate batch whose bulk insert fails and whose
individual inserts reject exactly one record. -/
theorem batch_failure_individual_fallback_witness :
    (storeCandidatesBatch
        ⟨fun _ => Except.error "db down",
         fun c => if c.name = "Bad" then Except.error "bad row" else Except.ok 7⟩
        [acceptedCandidate, { name := "Bad", email := "bad@example.com" }, laterDuplicate] =
      ([acceptedCandidate, { name := "Bad", email := "bad@example.com" },
          laterDuplicate].take 50).map
        (individualStore ⟨fun _ => Except.error "db down",
          fun c => if c.name = "Bad" then Except.error "bad row" else Except.ok 7⟩) ++
        storeCandidatesBatch
          ⟨fun _ => Except.error "db down",
           fun c => if c.name = "Bad" then Except.error "bad row" else Except.ok 7⟩
          ([acceptedCandidate, { name := "Bad", email := "bad@example.com" },
              laterDuplicate].drop 50)) ∧
    (([acceptedCandidate, { name := "Bad", email := "bad@example.com" },
        laterDuplicate].take 50).map
      (individualStore ⟨fun _ => Except.error "db down",
        fun c => if c.name = "Bad" then Except.error "bad row" else Except.ok 7⟩)).map
      (fun s => s.name) =
      ([acceptedCandidate, { name := "Bad", email := "bad@example.com" },
          laterDuplicate].take 50).map (fun c => c.name) ∧
    (([acceptedCandidate, { name := "Bad", email := "bad@example.com" },
        laterDuplicate].take 50).map
      (individualStore ⟨fun _ => Except.error "db down",
        fun c => if c.name = "Bad" then Except.error "bad row" else Except.ok 7⟩)).length =
      ([acceptedCandidate, { name := "Bad", email := "bad@example.com" },
          laterDuplicate].take 50).length :=
  batch_failure_individual_fallback _ _ "db down" rfl

/-- C7: per-resume extraction is total — it always returns a profile — and on
base64-decoder failure, or when the extracted text is missing or shorter than
50 characters once stripped, the returned profile is the failed sentinel: its
name carries the `Failed_Parse_` prefix and its email and skills are empty. -/
theorem parse_single_resume_failure_sentinel {β : Type} (b64decode : String → Option β)
    (extractText : β → String → String)
    (parseCandidateData : String → String → CandidateProfile)
    (fileContent filename : String)
    (h : b64decode fileContent = none ∨
      ∃ bytes, b64decode fileContent = some bytes ∧
        (extractText bytes filename).trim.length < 50) :
    parseSingleResume b64decode extractText parseCandidateData fileContent filename =
      createEmptyCandidate filename ∧
    (createEmptyCandidate filename).name = "Failed_Parse_" ++ filename ∧
    isPrefixB "Failed_Parse_".data (createEmptyCandidate filename).name.data = true ∧
    (createEmptyCandidate filename).email = "" ∧
    (createEmptyCandidate filename).skills = [] := by
  refine ⟨?_, rfl, ?_, rfl, rfl⟩
  case refine_2 =>
    show isPrefixB "Failed_Parse_".data ("Failed_Parse_" ++ filename).data = true
    rw [String.data_append]
    exact isPrefixB_append_self _ _
  unfold parseSingleResume
  rcases h with hnone | ⟨bytes, hsome, hshort⟩
  · rw [hnone]
  · rw [hsome]
    simp only
    rw [if_pos (Or.inr hshort)]

/-- C7 witness: a decoder that rejects the input yields the failure-flagged
sentinel profile. -/
theorem parse_single_resume_failure_sentinel_witness :
    parseSingleResume (fun _ => (none : Option Unit)) (fun _ _ => "")
      (fun _ fn => { name := fn }) "%%%" "cv.pdf" = createEmptyCandidate "cv.pdf" ∧
    (createEmptyCandidate "cv.pdf").name = "Failed_Parse_" ++ "cv.pdf" ∧
    isPrefixB "Failed_Parse_".data (createEmptyCandidate "cv.pdf").name.data = true ∧
    (createEmptyCandidate "cv.pdf").email = "" ∧
    (createEmptyCandidate "cv.pdf").skills = [] :=
  parse_single_resume_failure_sentinel (fun _ => (none : Option Unit)) (fun _ _ => "")
    (fun _ fn => { name := fn }) "%%%" "cv.pdf" (Or.inl rfl)

set_option maxRecDepth 100000 in
/-- C8: the fallback over an experience section does NOT compute
`max(year) - min(year)` over the 4-digit years.  The pattern `(19|20)\d{2}`
has a capture group, so `re.findall` returns the century prefixes 19/20, and
`max - min` over those is always 0 or 1.  On a text with no explicit pattern
match and an experience section containing 2010 and 2020, the code returns 0
where the claim demands 10. -/
theorem experience_fallback_century_prefix_bug :
    extractExperienceYears c8Text = 0 ∧
    explicitExperienceMatch c8Text.toLower.data = none ∧
    ((extractSection c8Text ["experience", "work history", "employment"]).map
      (fun sec => findYearGroups sec.data)) = some [20, 20] ∧
    ((extractSection c8Text ["experience", "work history", "employment"]).map
      (fun sec => claimedYearValues sec.data)) = some [2010, 2020] ∧
    min (2020 - 2010) 50 = 10 ∧
    extractExperienceYears c8Text ≠ 10 := by
  refine ⟨?_, ?_, ?_, ?_, ?_, ?_⟩ <;> with_unfolding_all decide

end RecruitmentAgent
